import Mathlib

/-!
Shallow embedding of the debounced-button event engine of
`src/lib/lib_button/lib_button.cpp` (DaveSampleKontrol).

The per-line state mirrors the parallel global arrays of the C++ file
(`lastRawState`, `stableState`, `lastDebounceTime`, `lastChangeTime`,
`lastPressMillis`, `clickCount`, `longReported`, and the four one-shot
event flags).  Timestamps are `millis()` values: unsigned 32-bit
milliseconds, modelled as `Nat` with the `now - saved` subtraction made
explicitly modular by `elapsedMs`.  `clickCount` is a `uint8_t`, so its
increment is taken mod 256.
-/

namespace LibButton

/-- `unsigned long` on AVR is 32 bits; `millis()` timestamps wrap at this. -/
def UINT32MOD : Nat := 4294967296

/-- Unsigned 32-bit subtraction `now - saved` of millisecond timestamps,
as every elapsed-time test in `updateButtons` computes it. -/
def elapsedMs (now saved : Nat) : Nat :=
  (now % UINT32MOD + UINT32MOD - saved % UINT32MOD) % UINT32MOD

/-- Per-line state: one slot of each global array of `lib_button.cpp`. -/
structure BtnState where
  lastRawState : Bool
  stableState : Bool
  lastDebounceTime : Nat
  lastChangeTime : Nat
  lastPressMillis : Nat
  clickCount : Nat
  longReported : Bool
  evtPressed : Bool
  evtReleased : Bool
  evtLongPress : Bool
  evtDoubleClick : Bool
  deriving Repr, DecidableEq

/-- The three timing globals (`debounceDelay`, `longPressTime`,
`doubleClickTime`), each a `uint16_t` number of milliseconds. -/
structure BtnConfig where
  debounceDelay : Nat
  longPressTime : Nat
  doubleClickTime : Nat
  deriving Repr, DecidableEq

/-- Default timings from lines 29-31 of the source. -/
def defaultConfig : BtnConfig := ⟨50, 1000, 400⟩

/-- Which one-shot events a single `updateButtons` evaluation raised for a
line (the `evt* = true` assignments executed during that call). -/
structure BtnEvents where
  pressed : Bool
  released : Bool
  longPressed : Bool
  doubleClicked : Bool
  deriving Repr, DecidableEq

/-- No event raised. -/
def noEvents : BtnEvents := ⟨false, false, false, false⟩

/-- Lines 209-212: if the sampled raw level differs from the recorded one,
restart the debounce timer and record the new raw level. -/
def applyRaw (s : BtnState) (now : Nat) (raw : Bool) : BtnState :=
  if raw != s.lastRawState then
    { s with lastDebounceTime := now, lastRawState := raw }
  else s

/-- Guard at lines 216-217 (evaluated on the post-`applyRaw` state): the raw
level has held for at least the debounce window and differs from the stable
level. -/
def commitStable (cfg : BtnConfig) (s : BtnState) (now : Nat) (raw : Bool) : Bool :=
  decide (cfg.debounceDelay ≤ elapsedMs now s.lastDebounceTime) && (s.stableState != raw)

/-- Lines 227-239: click bookkeeping run on a stable press transition.
Returns the updated state and whether `evtDoubleClick` was raised. -/
def pressClick (cfg : BtnConfig) (s : BtnState) (now : Nat) : BtnState × Bool :=
  let cnt := if elapsedMs now s.lastPressMillis ≤ cfg.doubleClickTime
             then (s.clickCount + 1) % 256 else 1
  let s' := { s with clickCount := cnt, lastPressMillis := now }
  if cnt = 2 then ({ s' with clickCount := 0, lastPressMillis := 0 }, true)
  else (s', false)

/-- Lines 250-258: long-press detection. Returns the updated state and
whether `evtLongPress` was raised. -/
def longCheck (cfg : BtnConfig) (s : BtnState) (now : Nat) : BtnState × Bool :=
  if s.stableState && !s.longReported
      && decide (cfg.longPressTime ≤ elapsedMs now s.lastChangeTime) then
    ({ s with longReported := true, clickCount := 0, lastPressMillis := 0 }, true)
  else (s, false)

/-- Lines 262-265: expire a pending single click once the double-click
window has been strictly exceeded. -/
def dcTimeout (cfg : BtnConfig) (s : BtnState) (now : Nat) : BtnState :=
  if s.clickCount = 1 && decide (cfg.doubleClickTime < elapsedMs now s.lastPressMillis) then
    { s with clickCount := 0, lastPressMillis := 0 }
  else s

/-- One full evaluation of the loop body of `updateButtons`
(lines 208-265) for one line, given the sampled raw level.  Returns the
new state and the events raised during this evaluation; the sticky event
flags accumulate them with `||` (the C++ code only ever assigns `true`). -/
def stepButton (cfg : BtnConfig) (s0 : BtnState) (now : Nat) (raw : Bool) :
    BtnState × BtnEvents :=
  let s1 := applyRaw s0 now raw
  let commit := commitStable cfg s1 now raw
  let s2 := if commit then
              { s1 with stableState := raw, lastChangeTime := now, longReported := false }
            else s1
  let press := commit && raw
  let rel := commit && !raw
  let pc := if press then pressClick cfg s2 now else (s2, false)
  let lc := longCheck cfg pc.1 now
  let s5 := dcTimeout cfg lc.1 now
  ({ s5 with
      evtPressed := s5.evtPressed || press,
      evtReleased := s5.evtReleased || rel,
      evtLongPress := s5.evtLongPress || lc.2,
      evtDoubleClick := s5.evtDoubleClick || pc.2 },
   ⟨press, rel, lc.2, pc.2⟩)

/-- Lines 129-138 of `initButtons`, for one line: seed raw and stable level
from the pin's current level (`true` = reads LOW = pressed), timestamps
from `now`, everything else cleared. -/
def initLine (raw : Bool) (now : Nat) : BtnState :=
  { lastRawState := raw
    stableState := raw
    lastDebounceTime := now
    lastChangeTime := now
    lastPressMillis := 0
    clickCount := 0
    longReported := false
    evtPressed := false
    evtReleased := false
    evtLongPress := false
    evtDoubleClick := false }

/-- Run a line through a list of evaluations `(now, raw)`. -/
def runButton (cfg : BtnConfig) (s : BtnState) : List (Nat × Bool) → BtnState
  | [] => s
  | (now, raw) :: rest => runButton cfg (stepButton cfg s now raw).1 rest

/-- The events raised at each evaluation of a list of evaluations. -/
def traceEvents (cfg : BtnConfig) (s : BtnState) : List (Nat × Bool) → List BtnEvents
  | [] => []
  | (now, raw) :: rest =>
      (stepButton cfg s now raw).2 :: traceEvents cfg (stepButton cfg s now raw).1 rest

/-- `MAX_BUTTONS` (line 26). -/
def MAXBUTTONS : Nat := 16

/-- The multi-line engine state: `btnCount` plus the per-line globals.
Lines are modelled as total functions from the index; only indices below
`btnCount` are ever observable through the public API.  `hasPCINT i`
records whether line `i`'s pin has pin-change-interrupt capability. -/
structure ButtonsState where
  btnCount : Nat
  lines : Nat → BtnState
  hasPCINT : Nat → Bool

/-- `initButtons(pins, count, usePullup)` (lines 69-151): clamp the count
to `MAX_BUTTONS`, and for each configured line record its pin, its
interrupt capability, and the seeded debounce state.  `readPressed pin`
models `digitalRead(pin) == LOW` at initialization time; `pcintCapable
pin` models `digitalPinToPCMSK(pin) != nullptr`.  `usePullup` only
selects the pin's input mode and has no further observable effect. -/
def initButtons (readPressed : Nat → Bool) (pcintCapable : Nat → Bool)
    (pins : Nat → Nat) (count : Nat) (_usePullup : Bool) (now : Nat) : ButtonsState :=
  let btnCount := if count > MAXBUTTONS then MAXBUTTONS else count
  { btnCount := btnCount
    lines := fun i => initLine (readPressed (pins i)) now
    hasPCINT := fun i => pcintCapable (pins i) }

/-- `countButtons()` (lines 321-323). -/
def countButtons (st : ButtonsState) : Nat := st.btnCount

/-- `checkIfButtonDown(idx)` (lines 275-278). -/
def checkIfButtonDown (st : ButtonsState) (idx : Nat) : Bool :=
  if st.btnCount ≤ idx then false else (st.lines idx).stableState

/-- `checkIfButtonWasPressed(idx)` (lines 280-285): out of range returns
`false` with no side effect; in range returns the flag and clears it. -/
def checkIfButtonWasPressed (st : ButtonsState) (idx : Nat) : Bool × ButtonsState :=
  if st.btnCount ≤ idx then (false, st)
  else
    ((st.lines idx).evtPressed,
     { st with lines := fun j =>
        if j = idx then { st.lines idx with evtPressed := false } else st.lines j })

/-- `checkIfButtonWasReleased(idx)` (lines 287-292). -/
def checkIfButtonWasReleased (st : ButtonsState) (idx : Nat) : Bool × ButtonsState :=
  if st.btnCount ≤ idx then (false, st)
  else
    ((st.lines idx).evtReleased,
     { st with lines := fun j =>
        if j = idx then { st.lines idx with evtReleased := false } else st.lines j })

/-- `checkIfButtonWasLongPressed(idx)` (lines 294-299). -/
def checkIfButtonWasLongPressed (st : ButtonsState) (idx : Nat) : Bool × ButtonsState :=
  if st.btnCount ≤ idx then (false, st)
  else
    ((st.lines idx).evtLongPress,
     { st with lines := fun j =>
        if j = idx then { st.lines idx with evtLongPress := false } else st.lines j })

/-- `checkIfButtonWasDoubleClicked(idx)` (lines 301-306). -/
def checkIfButtonWasDoubleClicked (st : ButtonsState) (idx : Nat) : Bool × ButtonsState :=
  if st.btnCount ≤ idx then (false, st)
  else
    ((st.lines idx).evtDoubleClick,
     { st with lines := fun j =>
        if j = idx then { st.lines idx with evtDoubleClick := false } else st.lines j })

/-- Result of one `updateButtons(sState)` call: the new engine state, the
caller-supplied stable-level output buffer after the call, and the events
each line raised during the call. -/
structure UpdateResult where
  state : ButtonsState
  buffer : Nat → Bool
  events : Nat → BtnEvents

/-- The non-AVR `updateButtons` (always-poll variant, lines 173-268 with
`doRead = true` and every line sampled by `digitalRead`): every configured
line is sampled and run through the full per-line logic, then
`sState[i] = checkIfButtonDown(i)` is written. -/
def updateButtonsPoll (cfg : BtnConfig) (st : ButtonsState) (now : Nat)
    (raws : Nat → Bool) (buf : Nat → Bool) : UpdateResult :=
  let st' : ButtonsState :=
    { st with lines := fun i =>
        if i < st.btnCount then (stepButton cfg (st.lines i) now (raws i)).1
        else st.lines i }
  { state := st'
    buffer := fun i =>
      if i < st.btnCount then checkIfButtonDown st' i else buf i
    events := fun i =>
      if i < st.btnCount then (stepButton cfg (st.lines i) now (raws i)).2
      else noEvents }

/-- The AVR `updateButtons` (interrupt-assisted variant, lines 173-268):
`pending` is the value of the ISR flag `anyPinChange` at the start of the
call (the call clears it, so it is consumed here).  With `doRead :=
pending`, a line with PCINT capability is skipped entirely by `continue`
when `doRead` is false — its state, its `sState[i]` slot and its event
flags are all left untouched; every other line runs the full logic. -/
def updateButtonsAVR (cfg : BtnConfig) (st : ButtonsState) (pending : Bool)
    (now : Nat) (raws : Nat → Bool) (buf : Nat → Bool) : UpdateResult :=
  let skip : Nat → Bool := fun i => st.hasPCINT i && !pending
  let st' : ButtonsState :=
    { st with lines := fun i =>
        if i < st.btnCount ∧ skip i = false
        then (stepButton cfg (st.lines i) now (raws i)).1
        else st.lines i }
  { state := st'
    buffer := fun i =>
      if i < st.btnCount ∧ skip i = false then checkIfButtonDown st' i else buf i
    events := fun i =>
      if i < st.btnCount ∧ skip i = false
      then (stepButton cfg (st.lines i) now (raws i)).2
      else noEvents }

/-- The per-line state after `n` evaluations of `updateButtons`, where the
`k`-th evaluation happens at time `(ins k).1` and samples raw level
`(ins k).2`. -/
def stateAt (cfg : BtnConfig) (s0 : BtnState) (ins : Nat → Nat × Bool) : Nat → BtnState
  | 0 => s0
  | n + 1 => (stepButton cfg (stateAt cfg s0 ins n) (ins n).1 (ins n).2).1

/-- The events the `n`-th evaluation raises for the line of `stateAt`. -/
def eventsAt (cfg : BtnConfig) (s0 : BtnState) (ins : Nat → Nat × Bool) (n : Nat) : BtnEvents :=
  (stepButton cfg (stateAt cfg s0 ins n) (ins n).1 (ins n).2).2

/-- Fold the always-poll `updateButtons` over a list of evaluations, all
lines sampling the same raw level each tick (used for one-line runs). -/
def pollRun (cfg : BtnConfig) (st : ButtonsState) : List (Nat × Bool) → ButtonsState
  | [] => st
  | (now, b) :: rest =>
      pollRun cfg (updateButtonsPoll cfg st now (fun _ => b) (fun _ => false)).state rest

/-- The events line 0 raises at each evaluation of a `pollRun`. -/
def pollTrace (cfg : BtnConfig) (st : ButtonsState) : List (Nat × Bool) → List BtnEvents
  | [] => []
  | (now, b) :: rest =>
      (updateButtonsPoll cfg st now (fun _ => b) (fun _ => false)).events 0 ::
        pollTrace cfg (updateButtonsPoll cfg st now (fun _ => b) (fun _ => false)).state rest

/-- §7 scenario start: one line whose pin reads LOW (pressed) when
`initButtons` runs at `t = 0`.  The pin has no interrupt capability, so
the poll path applies. -/
def c8init : ButtonsState :=
  initButtons (fun _ => true) (fun _ => false) (fun i => i) 1 true 0

/-- §7 scenario evaluations: contact bounce between `t = 5` and `t = 45`
(the raw level flips on every evaluation), settled LOW from `t = 46`,
held through `t = 1096`, released at `t = 1100`, settled HIGH by
`t = 1150`.  `true` = reads LOW = pressed. -/
def c8ticks : List (Nat × Bool) :=
  [(5, false), (10, true), (15, false), (20, true), (25, false), (30, true),
   (35, false), (40, true), (45, false), (46, true), (50, true), (96, true),
   (100, true), (1000, true), (1096, true), (1100, false), (1150, false)]

/-- The §7 scenario evaluations up to and including the one at `t = 96`. -/
def c8ticksPre : List (Nat × Bool) := c8ticks.take 12

/-- One-line engine state for the interrupt-skip divergence: the line's
pin is PCINT-capable, and the line was pressed when initialized at
`t = 0`. -/
def c1state : ButtonsState :=
  { btnCount := 1, lines := fun _ => initLine true 0, hasPCINT := fun _ => true }

/-- Timings for the rapid-click traces: debounce 0 (every raw change
commits at once), long-press far away, double-click window 400 ms. -/
def clickCfg : BtnConfig := ⟨0, 10000, 400⟩

/-- Three rapid presses on one line: presses start at `t = 100`, `200`,
`300`, each released 50 ms after it starts; consecutive press starts are
100 ms < 400 ms apart. -/
def c4ticks : List (Nat × Bool) :=
  [(100, true), (150, false), (200, true), (250, false), (300, true)]

/-- Press/release stream for the alternation witness: evaluations at
`t = 10, 20, 30, ...` with the raw level toggling each evaluation,
starting pressed. -/
def c6ins : Nat → Nat × Bool := fun n => (10 * (n + 1), decide (n % 2 = 0))

/-- A line whose raw level has already been recorded pressed while the
stable level is still released (debounce in progress since `t = 0`). -/
def sHeld : BtnState := { initLine false 0 with lastRawState := true }

/-- A line held stable-pressed whose long-press has already been reported. -/
def sReported : BtnState := { initLine true 0 with longReported := true }

/-- A long-reported pressed line whose raw level has been released since
`t = 0` (the release is about to be committed). -/
def sRelPending : BtnState := { initLine true 0 with lastRawState := false, longReported := true }

/-- A released line with one pending click and a raw press recorded (the
second press of a double-click is about to be committed). -/
def sOneClick : BtnState := { initLine false 0 with lastRawState := true, clickCount := 1 }

/-- A one-line engine state with all four one-shot event flags raised. -/
def takeDemo : ButtonsState :=
  { btnCount := 1
    lines := fun _ => { initLine false 0 with
      evtPressed := true, evtReleased := true, evtLongPress := true, evtDoubleClick := true }
    hasPCINT := fun _ => false }

section StageLemmas

variable (cfg : BtnConfig) (s : BtnState) (now : Nat) (raw : Bool)

lemma applyRaw_stableState : (applyRaw s now raw).stableState = s.stableState := by
  unfold applyRaw; try dsimp only
  split_ifs <;> rfl

lemma applyRaw_lastRawState : (applyRaw s now raw).lastRawState = raw := by
  unfold applyRaw; try dsimp only
  split_ifs with h <;> simp_all

lemma applyRaw_lastChangeTime : (applyRaw s now raw).lastChangeTime = s.lastChangeTime := by
  unfold applyRaw; try dsimp only
  split_ifs <;> rfl

lemma applyRaw_longReported : (applyRaw s now raw).longReported = s.longReported := by
  unfold applyRaw; try dsimp only
  split_ifs <;> rfl

lemma applyRaw_clickCount : (applyRaw s now raw).clickCount = s.clickCount := by
  unfold applyRaw; try dsimp only
  split_ifs <;> rfl

lemma applyRaw_lastPressMillis : (applyRaw s now raw).lastPressMillis = s.lastPressMillis := by
  unfold applyRaw; try dsimp only
  split_ifs <;> rfl

lemma applyRaw_lastDebounceTime :
    (applyRaw s now raw).lastDebounceTime =
      if raw != s.lastRawState then now else s.lastDebounceTime := by
  unfold applyRaw; try dsimp only
  split_ifs <;> rfl

lemma pressClick_stableState : (pressClick cfg s now).1.stableState = s.stableState := by
  unfold pressClick; try dsimp only
  split_ifs <;> rfl

lemma pressClick_lastChangeTime : (pressClick cfg s now).1.lastChangeTime = s.lastChangeTime := by
  unfold pressClick; try dsimp only
  split_ifs <;> rfl

lemma pressClick_lastDebounceTime :
    (pressClick cfg s now).1.lastDebounceTime = s.lastDebounceTime := by
  unfold pressClick; try dsimp only
  split_ifs <;> rfl

lemma pressClick_lastRawState : (pressClick cfg s now).1.lastRawState = s.lastRawState := by
  unfold pressClick; try dsimp only
  split_ifs <;> rfl

lemma pressClick_longReported : (pressClick cfg s now).1.longReported = s.longReported := by
  unfold pressClick; try dsimp only
  split_ifs <;> rfl

lemma longCheck_stableState : (longCheck cfg s now).1.stableState = s.stableState := by
  unfold longCheck; try dsimp only
  split_ifs <;> rfl

lemma longCheck_lastChangeTime : (longCheck cfg s now).1.lastChangeTime = s.lastChangeTime := by
  unfold longCheck; try dsimp only
  split_ifs <;> rfl

lemma longCheck_lastDebounceTime :
    (longCheck cfg s now).1.lastDebounceTime = s.lastDebounceTime := by
  unfold longCheck; try dsimp only
  split_ifs <;> rfl

lemma longCheck_lastRawState : (longCheck cfg s now).1.lastRawState = s.lastRawState := by
  unfold longCheck; try dsimp only
  split_ifs <;> rfl

lemma dcTimeout_stableState : (dcTimeout cfg s now).stableState = s.stableState := by
  unfold dcTimeout; try dsimp only
  split_ifs <;> rfl

lemma dcTimeout_lastChangeTime : (dcTimeout cfg s now).lastChangeTime = s.lastChangeTime := by
  unfold dcTimeout; try dsimp only
  split_ifs <;> rfl

lemma dcTimeout_lastDebounceTime :
    (dcTimeout cfg s now).lastDebounceTime = s.lastDebounceTime := by
  unfold dcTimeout; try dsimp only
  split_ifs <;> rfl

lemma dcTimeout_lastRawState : (dcTimeout cfg s now).lastRawState = s.lastRawState := by
  unfold dcTimeout; try dsimp only
  split_ifs <;> rfl

lemma dcTimeout_longReported : (dcTimeout cfg s now).longReported = s.longReported := by
  unfold dcTimeout; try dsimp only
  split_ifs <;> rfl

end StageLemmas

section StepLemmas

variable (cfg : BtnConfig) (s : BtnState) (now : Nat) (raw : Bool)

lemma stepButton_stableState :
    (stepButton cfg s now raw).1.stableState =
      if commitStable cfg (applyRaw s now raw) now raw then raw else s.stableState := by
  unfold stepButton
  dsimp only
  rw [dcTimeout_stableState, longCheck_stableState]
  cases hc : commitStable cfg (applyRaw s now raw) now raw <;> cases raw <;>
    simp [hc, pressClick_stableState, applyRaw_stableState]

lemma stepButton_lastRawState : (stepButton cfg s now raw).1.lastRawState = raw := by
  unfold stepButton
  dsimp only
  rw [dcTimeout_lastRawState, longCheck_lastRawState]
  cases hc : commitStable cfg (applyRaw s now raw) now raw <;> cases raw <;>
    simp [hc, pressClick_lastRawState, applyRaw_lastRawState]

lemma stepButton_lastChangeTime :
    (stepButton cfg s now raw).1.lastChangeTime =
      if commitStable cfg (applyRaw s now raw) now raw then now else s.lastChangeTime := by
  unfold stepButton
  dsimp only
  rw [dcTimeout_lastChangeTime, longCheck_lastChangeTime]
  cases hc : commitStable cfg (applyRaw s now raw) now raw <;> cases raw <;>
    simp [hc, pressClick_lastChangeTime, applyRaw_lastChangeTime]

lemma stepButton_lastDebounceTime :
    (stepButton cfg s now raw).1.lastDebounceTime = (applyRaw s now raw).lastDebounceTime := by
  unfold stepButton
  dsimp only
  rw [dcTimeout_lastDebounceTime, longCheck_lastDebounceTime]
  cases hc : commitStable cfg (applyRaw s now raw) now raw <;> cases raw <;>
    simp [hc, pressClick_lastDebounceTime]

lemma stepButton_pressed :
    (stepButton cfg s now raw).2.pressed =
      (commitStable cfg (applyRaw s now raw) now raw && raw) := rfl

lemma stepButton_released :
    (stepButton cfg s now raw).2.released =
      (commitStable cfg (applyRaw s now raw) now raw && !raw) := rfl

end StepLemmas

lemma commitStable_true_iff (cfg : BtnConfig) (s1 : BtnState) (now : Nat) (raw : Bool) :
    commitStable cfg s1 now raw = true ↔
      cfg.debounceDelay ≤ elapsedMs now s1.lastDebounceTime ∧ s1.stableState ≠ raw := by
  unfold commitStable
  simp [bne_iff_ne]

lemma longCheck_snd (cfg : BtnConfig) (s : BtnState) (now : Nat) :
    (longCheck cfg s now).2 =
      (s.stableState && !s.longReported
        && decide (cfg.longPressTime ≤ elapsedMs now s.lastChangeTime)) := by
  unfold longCheck; try dsimp only
  split_ifs with h <;> simp_all

lemma longCheck_longReported (cfg : BtnConfig) (s : BtnState) (now : Nat) :
    (longCheck cfg s now).1.longReported = (s.longReported || (longCheck cfg s now).2) := by
  unfold longCheck; try dsimp only
  split_ifs with h <;> simp_all

lemma longCheck_fire (cfg : BtnConfig) (s : BtnState) (now : Nat) :
    (longCheck cfg s now).2 = true →
      (longCheck cfg s now).1.clickCount = 0 ∧ (longCheck cfg s now).1.lastPressMillis = 0 := by
  unfold longCheck; try dsimp only
  split_ifs <;> simp_all

lemma longCheck_clears (cfg : BtnConfig) (s : BtnState) (now : Nat) :
    s.clickCount = 0 → s.lastPressMillis = 0 →
      (longCheck cfg s now).1.clickCount = 0 ∧ (longCheck cfg s now).1.lastPressMillis = 0 := by
  unfold longCheck; try dsimp only
  split_ifs <;> simp_all

lemma longCheck_clickCount_le (cfg : BtnConfig) (s : BtnState) (now : Nat) :
    (longCheck cfg s now).1.clickCount ≤ s.clickCount := by
  unfold longCheck; try dsimp only
  split_ifs <;> simp

lemma dcTimeout_of_clickCount_zero (cfg : BtnConfig) (s : BtnState) (now : Nat) :
    s.clickCount = 0 → dcTimeout cfg s now = s := by
  intro h; unfold dcTimeout; simp [h]

lemma dcTimeout_clickCount_le (cfg : BtnConfig) (s : BtnState) (now : Nat) :
    (dcTimeout cfg s now).clickCount ≤ s.clickCount := by
  unfold dcTimeout; try dsimp only
  split_ifs <;> simp

lemma pressClick_snd (cfg : BtnConfig) (s : BtnState) (now : Nat) :
    (pressClick cfg s now).2 =
      (decide (elapsedMs now s.lastPressMillis ≤ cfg.doubleClickTime)
        && decide ((s.clickCount + 1) % 256 = 2)) := by
  unfold pressClick; try dsimp only
  split_ifs <;> simp_all

lemma pressClick_fire (cfg : BtnConfig) (s : BtnState) (now : Nat) :
    (pressClick cfg s now).2 = true →
      (pressClick cfg s now).1.clickCount = 0 ∧ (pressClick cfg s now).1.lastPressMillis = 0 := by
  unfold pressClick; try dsimp only
  split_ifs <;> simp_all

lemma pressClick_clickCount_le (cfg : BtnConfig) (s : BtnState) (now : Nat) :
    s.clickCount ≤ 1 → (pressClick cfg s now).1.clickCount ≤ 1 := by
  intro h
  unfold pressClick; try dsimp only
  split_ifs with h1 h2 h2 <;> simp_all
  omega

lemma step_tail_clears (cfg : BtnConfig) (t : BtnState) (now : Nat) :
    t.clickCount = 0 → t.lastPressMillis = 0 →
      (dcTimeout cfg (longCheck cfg t now).1 now).clickCount = 0 ∧
      (dcTimeout cfg (longCheck cfg t now).1 now).lastPressMillis = 0 := by
  intro h1 h2
  obtain ⟨a, b⟩ := longCheck_clears cfg t now h1 h2
  rw [dcTimeout_of_clickCount_zero cfg _ now a]
  exact ⟨a, b⟩

lemma stepButton_longPressed (cfg : BtnConfig) (s : BtnState) (now : Nat) (raw : Bool) :
    (stepButton cfg s now raw).2.longPressed =
      ((if commitStable cfg (applyRaw s now raw) now raw then raw else s.stableState) &&
       !(if commitStable cfg (applyRaw s now raw) now raw then false else s.longReported) &&
       decide (cfg.longPressTime ≤ elapsedMs now
         (if commitStable cfg (applyRaw s now raw) now raw then now else s.lastChangeTime))) := by
  unfold stepButton
  dsimp only
  rw [longCheck_snd]
  cases hc : commitStable cfg (applyRaw s now raw) now raw <;> cases raw <;>
    simp [hc, pressClick_stableState, pressClick_longReported, pressClick_lastChangeTime,
          applyRaw_stableState, applyRaw_longReported, applyRaw_lastChangeTime]

lemma stepButton_longReported (cfg : BtnConfig) (s : BtnState) (now : Nat) (raw : Bool) :
    (stepButton cfg s now raw).1.longReported =
      ((if commitStable cfg (applyRaw s now raw) now raw then false else s.longReported)
        || (stepButton cfg s now raw).2.longPressed) := by
  unfold stepButton
  dsimp only
  rw [dcTimeout_longReported, longCheck_longReported]
  cases hc : commitStable cfg (applyRaw s now raw) now raw <;> cases raw <;>
    simp [hc, pressClick_longReported, applyRaw_longReported]

lemma stepButton_doubleClicked (cfg : BtnConfig) (s : BtnState) (now : Nat) (raw : Bool) :
    (stepButton cfg s now raw).2.doubleClicked =
      ((commitStable cfg (applyRaw s now raw) now raw && raw)
        && decide (elapsedMs now s.lastPressMillis ≤ cfg.doubleClickTime)
        && decide ((s.clickCount + 1) % 256 = 2)) := by
  unfold stepButton
  dsimp only
  cases hc : commitStable cfg (applyRaw s now raw) now raw <;> cases raw <;>
    simp [hc, pressClick_snd, applyRaw_clickCount, applyRaw_lastPressMillis]

lemma stepButton_stable_changed_iff (cfg : BtnConfig) (s : BtnState) (now : Nat) (raw : Bool) :
    (stepButton cfg s now raw).1.stableState ≠ s.stableState ↔
      commitStable cfg (applyRaw s now raw) now raw = true := by
  rw [stepButton_stableState]
  cases hc : commitStable cfg (applyRaw s now raw) now raw
  · simp
  · have := (commitStable_true_iff cfg (applyRaw s now raw) now raw).mp hc
    rw [applyRaw_stableState] at this
    simp [Ne.symm this.2]

lemma stepButton_dc_clears (cfg : BtnConfig) (s : BtnState) (now : Nat) (raw : Bool) :
    (stepButton cfg s now raw).2.doubleClicked = true →
      (stepButton cfg s now raw).1.clickCount = 0 ∧
      (stepButton cfg s now raw).1.lastPressMillis = 0 := by
  unfold stepButton
  dsimp only
  cases hc : commitStable cfg (applyRaw s now raw) now raw <;> cases raw <;> simp [hc]
  intro h
  obtain ⟨a, b⟩ := pressClick_fire _ _ _ h
  exact step_tail_clears _ _ _ a b

lemma stepButton_long_clears (cfg : BtnConfig) (s : BtnState) (now : Nat) (raw : Bool) :
    (stepButton cfg s now raw).2.longPressed = true →
      (stepButton cfg s now raw).1.longReported = true ∧
      (stepButton cfg s now raw).1.clickCount = 0 ∧
      (stepButton cfg s now raw).1.lastPressMillis = 0 := by
  intro h
  refine ⟨?_, ?_⟩
  · rw [stepButton_longReported, h]
    simp
  · have h2 := h
    unfold stepButton at h2 ⊢
    dsimp only at h2 ⊢
    obtain ⟨a, b⟩ := longCheck_fire _ _ _ h2
    rw [dcTimeout_of_clickCount_zero _ _ _ a]
    exact ⟨a, b⟩

lemma stepButton_clickCount_le (cfg : BtnConfig) (s : BtnState) (now : Nat) (raw : Bool)
    (h : s.clickCount ≤ 1) : (stepButton cfg s now raw).1.clickCount ≤ 1 := by
  unfold stepButton
  dsimp only
  have tail : ∀ t : BtnState, t.clickCount ≤ 1 →
      (dcTimeout cfg (longCheck cfg t now).1 now).clickCount ≤ 1 := fun t ht =>
    le_trans (dcTimeout_clickCount_le cfg _ now)
      (le_trans (longCheck_clickCount_le cfg t now) ht)
  cases hc : commitStable cfg (applyRaw s now raw) now raw <;> cases raw <;> simp [hc] <;>
    first
      | exact tail _ (by rw [applyRaw_clickCount]; exact h)
      | exact tail _ (pressClick_clickCount_le cfg _ now (by simpa [applyRaw_clickCount] using h))

lemma stepButton_pressed_iff (cfg : BtnConfig) (s : BtnState) (now : Nat) (raw : Bool) :
    (stepButton cfg s now raw).2.pressed = true ↔
      s.stableState = false ∧ (stepButton cfg s now raw).1.stableState = true := by
  rw [stepButton_pressed, stepButton_stableState]
  cases hc : commitStable cfg (applyRaw s now raw) now raw
  · simp
  · have := (commitStable_true_iff cfg (applyRaw s now raw) now raw).mp hc
    rw [applyRaw_stableState] at this
    cases raw <;> simp_all

lemma stepButton_released_iff (cfg : BtnConfig) (s : BtnState) (now : Nat) (raw : Bool) :
    (stepButton cfg s now raw).2.released = true ↔
      s.stableState = true ∧ (stepButton cfg s now raw).1.stableState = false := by
  rw [stepButton_released, stepButton_stableState]
  cases hc : commitStable cfg (applyRaw s now raw) now raw
  · simp
  · have := (commitStable_true_iff cfg (applyRaw s now raw) now raw).mp hc
    rw [applyRaw_stableState] at this
    cases raw <;> simp_all

lemma elapsedMs_self (now : Nat) : elapsedMs now now = 0 := by
  unfold elapsedMs UINT32MOD; omega

/-- C2: on every evaluation of `updateButtons`, a line's stable level changes
only if the raw level has held its new value for at least (inclusively, `≥`)
the debounce window since the last recorded raw-level change; when it changes
it is set to that raw value and its change timestamp is set to the current
time.  A raw-level flip restarts the settle timer (`lastDebounceTime := now`,
`lastRawState := raw`) and, for a positive debounce window, leaves the stable
level unchanged on that evaluation. -/
theorem C2_debounce_commit (cfg : BtnConfig) (s : BtnState) (now : Nat) (raw : Bool) :
    ((stepButton cfg s now raw).1.stableState ≠ s.stableState →
        cfg.debounceDelay ≤ elapsedMs now (stepButton cfg s now raw).1.lastDebounceTime ∧
        (stepButton cfg s now raw).1.stableState = raw ∧
        (stepButton cfg s now raw).1.lastChangeTime = now) ∧
    (raw ≠ s.lastRawState →
        (stepButton cfg s now raw).1.lastDebounceTime = now ∧
        (stepButton cfg s now raw).1.lastRawState = raw) ∧
    (raw ≠ s.lastRawState → 0 < cfg.debounceDelay →
        (stepButton cfg s now raw).1.stableState = s.stableState) := by
  have hb : (raw != s.lastRawState) = true ↔ raw ≠ s.lastRawState := bne_iff_ne
  refine ⟨?_, ?_, ?_⟩
  · intro h
    rw [stepButton_stableState] at h ⊢
    rw [stepButton_lastDebounceTime, stepButton_lastChangeTime]
    by_cases hc : commitStable cfg (applyRaw s now raw) now raw = true
    · have hc1 := hc
      unfold commitStable at hc1
      simp only [Bool.and_eq_true, decide_eq_true_eq] at hc1
      simp [hc, hc1.1]
    · simp [Bool.not_eq_true] at hc
      simp [hc] at h
  · intro h
    rw [stepButton_lastDebounceTime, stepButton_lastRawState, applyRaw_lastDebounceTime]
    simp [hb.mpr h]
  · intro h hd
    rw [stepButton_stableState]
    have hnow : (applyRaw s now raw).lastDebounceTime = now := by
      rw [applyRaw_lastDebounceTime]; simp [hb.mpr h]
    have : commitStable cfg (applyRaw s now raw) now raw = false := by
      unfold commitStable
      rw [hnow, elapsedMs_self]
      simp; omega
    simp [this]

/-- C9: every elapsed-time test in `updateButtons` computes `now - saved` as
unsigned 32-bit modular subtraction (`elapsedMs`), so the comparison sees the
true elapsed interval even when the millisecond clock wraps between the saved
timestamp and the current evaluation, provided the real interval is below
`2^32` ms.  The first conjunct feeds the wrapped (stored) timestamps to the
subtraction; the second states the same for unreduced clock readings. -/
theorem C9_wrap (tSaved tNow : Nat) (h1 : tSaved ≤ tNow) (h2 : tNow - tSaved < UINT32MOD) :
    elapsedMs (tNow % UINT32MOD) (tSaved % UINT32MOD) = tNow - tSaved ∧
    elapsedMs tNow tSaved = tNow - tSaved := by
  unfold elapsedMs UINT32MOD at *
  constructor <;> omega

/-- Concrete instantiation of `C9_wrap` across a clock wrap. -/
theorem C9_wrap_witness :
    elapsedMs (4294967301 % UINT32MOD) (4294967290 % UINT32MOD) = 4294967301 - 4294967290 ∧
    elapsedMs 4294967301 4294967290 = 4294967301 - 4294967290 :=
  C9_wrap 4294967290 4294967301 (by decide) (by decide)

/-- C7: `initButtons` configures exactly `min count MAX_BUTTONS` lines —
`countButtons` returns the clamped value and an over-capacity request is
silently truncated with no error — and seeds each configured line's raw and
stable level from the pin's current level, with both timestamps at the
initialization time and all four one-shot event flags false, so no event is
raised for the initial level. -/
theorem C7_init (readPressed pcintCapable : Nat → Bool) (pins : Nat → Nat)
    (count : Nat) (up : Bool) (now : Nat) :
    countButtons (initButtons readPressed pcintCapable pins count up now) =
        min count MAXBUTTONS ∧
    (MAXBUTTONS < count →
      countButtons (initButtons readPressed pcintCapable pins count up now) = MAXBUTTONS) ∧
    (∀ i, i < countButtons (initButtons readPressed pcintCapable pins count up now) →
      let l := (initButtons readPressed pcintCapable pins count up now).lines i
      l.lastRawState = readPressed (pins i) ∧
      l.stableState = readPressed (pins i) ∧
      l.lastDebounceTime = now ∧
      l.lastChangeTime = now ∧
      l.lastPressMillis = 0 ∧
      l.clickCount = 0 ∧
      l.longReported = false ∧
      l.evtPressed = false ∧
      l.evtReleased = false ∧
      l.evtLongPress = false ∧
      l.evtDoubleClick = false) := by
  refine ⟨?_, ?_, ?_⟩
  · simp only [countButtons, initButtons, MAXBUTTONS]
    split_ifs <;> omega
  · intro h
    simp only [countButtons, initButtons, MAXBUTTONS] at *
    split_ifs <;> omega
  · intro i _
    simp [initButtons, initLine]

/-- Concrete instantiation of `C7_init`: a 20-line request is clamped to
16 and line 0 is seeded pressed. -/
theorem C7_init_witness :
    countButtons (initButtons (fun _ => true) (fun _ => false) (fun i => i) 20 true 7) =
        min 20 MAXBUTTONS ∧
    countButtons (initButtons (fun _ => true) (fun _ => false) (fun i => i) 20 true 7) =
        MAXBUTTONS ∧
    ((initButtons (fun _ => true) (fun _ => false) (fun i => i) 20 true 7).lines 0).stableState =
        true := by
  have h := C7_init (fun _ => true) (fun _ => false) (fun i => i) 20 true 7
  exact ⟨h.1, h.2.1 (by decide), ((h.2.2 0 (by decide)).2.1)⟩

/-- C3: on every evaluation, the long-pressed event is raised iff the line
is currently stable-pressed, long-press has not yet been reported for this
press (the flag, freshly cleared if this evaluation committed a transition),
and the elapsed time since the last stable-level change is at least the
long-press threshold.  Raising it sets the reported flag and zeroes the click
counter and press-reference; while the flag is set and no new transition
commits, it cannot fire again (at most once per continuous press); from a
reported pressed state the flag is cleared only by a committed release (which
raises the released event); and the reported flag never outlives the pressed
stable state. -/
theorem C3_long_press (cfg : BtnConfig) (s : BtnState) (now : Nat) (raw : Bool) :
    ((stepButton cfg s now raw).2.longPressed = true ↔
        ((stepButton cfg s now raw).1.stableState = true ∧
         (if (stepButton cfg s now raw).1.stableState = s.stableState
            then s.longReported else false) = false ∧
         cfg.longPressTime ≤ elapsedMs now (stepButton cfg s now raw).1.lastChangeTime)) ∧
    ((stepButton cfg s now raw).2.longPressed = true →
        (stepButton cfg s now raw).1.longReported = true ∧
        (stepButton cfg s now raw).1.clickCount = 0 ∧
        (stepButton cfg s now raw).1.lastPressMillis = 0) ∧
    (s.longReported = true → (stepButton cfg s now raw).1.stableState = s.stableState →
        (stepButton cfg s now raw).2.longPressed = false) ∧
    (s.longReported = true → s.stableState = true →
        (stepButton cfg s now raw).1.longReported = false →
        (stepButton cfg s now raw).1.stableState = false ∧
        (stepButton cfg s now raw).2.released = true) ∧
    ((s.longReported = true → s.stableState = true) →
        (stepButton cfg s now raw).1.longReported = true →
        (stepButton cfg s now raw).1.stableState = true) := by
  refine ⟨?_, stepButton_long_clears cfg s now raw, ?_, ?_, ?_⟩
  · rw [stepButton_longPressed, stepButton_stableState, stepButton_lastChangeTime]
    by_cases hc : commitStable cfg (applyRaw s now raw) now raw = true
    · have hne : s.stableState ≠ raw := by
        have := (commitStable_true_iff cfg (applyRaw s now raw) now raw).mp hc
        rw [applyRaw_stableState] at this
        exact this.2
      simp [hc, Ne.symm hne]
    · simp only [Bool.not_eq_true] at hc
      simp [hc, and_assoc]
  · intro h1 h2
    have hc : commitStable cfg (applyRaw s now raw) now raw = false := by
      by_contra hne
      simp only [Bool.not_eq_false] at hne
      exact ((stepButton_stable_changed_iff cfg s now raw).mpr hne) h2
    rw [stepButton_longPressed]
    simp [hc, h1]
  · intro h1 h2 h3
    rw [stepButton_longReported] at h3
    simp only [Bool.or_eq_false_iff] at h3
    have hc : commitStable cfg (applyRaw s now raw) now raw = true := by
      by_contra hne
      simp only [Bool.not_eq_true] at hne
      rw [if_neg (by simp [hne])] at h3
      rw [h1] at h3
      exact absurd h3.1 (by simp)
    have hne : s.stableState ≠ raw := by
      have := (commitStable_true_iff cfg (applyRaw s now raw) now raw).mp hc
      rw [applyRaw_stableState] at this
      exact this.2
    have hraw : raw = false := by
      cases raw
      · rfl
      · rw [h2] at hne; exact absurd rfl hne
    constructor
    · rw [stepButton_stableState, if_pos hc, hraw]
    · rw [stepButton_released, hc, hraw]
      rfl
  · intro hinv h5
    rw [stepButton_longReported] at h5
    rw [stepButton_stableState]
    rcases Bool.or_eq_true_iff.mp h5 with h | h
    · by_cases hc : commitStable cfg (applyRaw s now raw) now raw = true
      · rw [if_pos hc] at h
        exact absurd h (by simp)
      · simp only [Bool.not_eq_true] at hc
        rw [if_neg (by simp [hc])] at h
        simp [hc, hinv h]
    · rw [stepButton_longPressed] at h
      simp only [Bool.and_eq_true] at h
      by_cases hc : commitStable cfg (applyRaw s now raw) now raw = true
      · rw [if_pos hc]
        have := h.1.1
        rwa [if_pos hc] at this
      · simp only [Bool.not_eq_true] at hc
        rw [if_neg (by simp [hc])]
        have := h.1.1
        rwa [if_neg (by simp [hc])] at this

/-- C4: on a press whose start is within the double-click window of the
previous press-reference while exactly one click is pending, the
double-clicked event is raised (and only then), and raising it zeroes the
click counter and press-reference, so a third rapid press starts a fresh
single-click count.  The click counter never exceeds 1 between evaluations
(so it never reaches 3 and a triple-click is never classified), and the
three-rapid-presses trace raises exactly one double-click, on the second
press. -/
theorem C4_double_click (cfg : BtnConfig) (s : BtnState) (now : Nat) (raw : Bool)
    (hcc : s.clickCount ≤ 1) :
    ((stepButton cfg s now raw).2.doubleClicked = true ↔
        ((stepButton cfg s now raw).2.pressed = true ∧
         elapsedMs now s.lastPressMillis ≤ cfg.doubleClickTime ∧
         s.clickCount = 1)) ∧
    ((stepButton cfg s now raw).2.doubleClicked = true →
        (stepButton cfg s now raw).1.clickCount = 0 ∧
        (stepButton cfg s now raw).1.lastPressMillis = 0) ∧
    (stepButton cfg s now raw).1.clickCount ≤ 1 ∧
    traceEvents clickCfg (initLine false 0) c4ticks =
      [⟨true, false, false, false⟩, ⟨false, true, false, false⟩,
       ⟨true, false, false, true⟩, ⟨false, true, false, false⟩,
       ⟨true, false, false, false⟩] ∧
    (runButton clickCfg (initLine false 0) c4ticks).clickCount = 1 := by
  refine ⟨?_, stepButton_dc_clears cfg s now raw,
          stepButton_clickCount_le cfg s now raw hcc, by decide, by decide⟩
  rw [stepButton_doubleClicked, stepButton_pressed]
  simp only [Bool.and_eq_true, decide_eq_true_eq]
  constructor
  · rintro ⟨⟨a, b⟩, c⟩
    exact ⟨a, b, by omega⟩
  · rintro ⟨a, b, c⟩
    exact ⟨⟨a, b⟩, by omega⟩

/-- C10: if a line's pin reads pressed at initialization, the stable level
is seeded pressed with no pressed event, and the first evaluation at least
the long-press threshold after initialization raises the long-pressed event
— exactly once, and with no pressed event ever raised for the hold: a
long-press observable with no preceding press.  Evaluations earlier than the
threshold raise nothing. -/
theorem C10_long_press_without_press (cfg : BtnConfig) (t0 t1 t2 : Nat)
    (h1 : cfg.longPressTime ≤ elapsedMs t1 t0) :
    (initLine true t0).evtPressed = false ∧
    (stepButton cfg (initLine true t0) t1 true).2.longPressed = true ∧
    (stepButton cfg (initLine true t0) t1 true).2.pressed = false ∧
    (stepButton cfg (stepButton cfg (initLine true t0) t1 true).1 t2 true).2.longPressed = false ∧
    (stepButton cfg (stepButton cfg (initLine true t0) t1 true).1 t2 true).2.pressed = false ∧
    (∀ t, elapsedMs t t0 < cfg.longPressTime →
        (stepButton cfg (initLine true t0) t true).2.longPressed = false) := by
  have hcomm : ∀ t, commitStable cfg (applyRaw (initLine true t0) t true) t true = false := by
    intro t
    have ha : applyRaw (initLine true t0) t true = initLine true t0 := by
      unfold applyRaw
      simp [initLine]
    rw [ha]
    unfold commitStable
    simp [initLine]
  have hstable : (stepButton cfg (initLine true t0) t1 true).1.stableState = true := by
    rw [stepButton_stableState, if_neg (by simp [hcomm t1])]
    rfl
  have hlraw : (stepButton cfg (initLine true t0) t1 true).1.lastRawState = true :=
    stepButton_lastRawState cfg _ t1 true
  have hlp1 : (stepButton cfg (initLine true t0) t1 true).2.longPressed = true := by
    rw [stepButton_longPressed]
    rw [if_neg (by simp [hcomm t1]), if_neg (by simp [hcomm t1]), if_neg (by simp [hcomm t1])]
    simp [initLine, h1]
  have hrep : (stepButton cfg (initLine true t0) t1 true).1.longReported = true := by
    rw [stepButton_longReported, hlp1]
    simp
  have hcomm2 : commitStable cfg
      (applyRaw (stepButton cfg (initLine true t0) t1 true).1 t2 true) t2 true = false := by
    have ha : applyRaw (stepButton cfg (initLine true t0) t1 true).1 t2 true =
        (stepButton cfg (initLine true t0) t1 true).1 := by
      unfold applyRaw
      simp [hlraw]
    rw [ha]
    unfold commitStable
    simp [hstable]
  refine ⟨rfl, hlp1, ?_, ?_, ?_, ?_⟩
  · rw [stepButton_pressed, hcomm t1]
    rfl
  · rw [stepButton_longPressed]
    simp [hcomm2, hrep]
  · rw [stepButton_pressed, hcomm2]
    rfl
  · intro t ht
    rw [stepButton_longPressed]
    simp only [hcomm t, if_false]
    have : ¬ (cfg.longPressTime ≤ elapsedMs t (initLine true t0).lastChangeTime) := by
      simp only [initLine]
      omega
    simp [this]

lemma exists_fall (cfg : BtnConfig) (s0 : BtnState) (ins : Nat → Nat × Bool) :
    ∀ b a, a ≤ b → (stateAt cfg s0 ins a).stableState = true →
      (stateAt cfg s0 ins b).stableState = false →
      ∃ m, a ≤ m ∧ m < b ∧ (stateAt cfg s0 ins m).stableState = true ∧
        (stateAt cfg s0 ins (m + 1)).stableState = false := by
  intro b
  induction b with
  | zero =>
      intro a ha h1 h2
      have : a = 0 := Nat.le_zero.mp ha
      subst this
      rw [h1] at h2
      exact absurd h2 (by simp)
  | succ b ih =>
      intro a ha h1 h2
      have haa : a ≤ b := by
        rcases Nat.lt_succ_iff_lt_or_eq.mp (Nat.lt_succ_of_le ha) with h | h
        · omega
        · subst h; rw [h1] at h2; exact absurd h2 (by simp)
      by_cases hb : (stateAt cfg s0 ins b).stableState = true
      · exact ⟨b, haa, Nat.lt_succ_self b, hb, h2⟩
      · obtain ⟨m, h3, h4, h5, h6⟩ := ih a haa h1 (Bool.not_eq_true _ ▸ hb)
        exact ⟨m, h3, Nat.lt_succ_of_lt h4, h5, h6⟩

lemma exists_rise (cfg : BtnConfig) (s0 : BtnState) (ins : Nat → Nat × Bool) :
    ∀ b a, a ≤ b → (stateAt cfg s0 ins a).stableState = false →
      (stateAt cfg s0 ins b).stableState = true →
      ∃ m, a ≤ m ∧ m < b ∧ (stateAt cfg s0 ins m).stableState = false ∧
        (stateAt cfg s0 ins (m + 1)).stableState = true := by
  intro b
  induction b with
  | zero =>
      intro a ha h1 h2
      have : a = 0 := Nat.le_zero.mp ha
      subst this
      rw [h1] at h2
      exact absurd h2 (by simp)
  | succ b ih =>
      intro a ha h1 h2
      have haa : a ≤ b := by
        rcases Nat.lt_succ_iff_lt_or_eq.mp (Nat.lt_succ_of_le ha) with h | h
        · omega
        · subst h; rw [h1] at h2; exact absurd h2 (by simp)
      by_cases hb : (stateAt cfg s0 ins b).stableState = true
      · obtain ⟨m, h3, h4, h5, h6⟩ := ih a haa h1 hb
        exact ⟨m, h3, Nat.lt_succ_of_lt h4, h5, h6⟩
      · exact ⟨b, haa, Nat.lt_succ_self b, Bool.not_eq_true _ ▸ hb, h2⟩

lemma pressedAt_iff (cfg : BtnConfig) (s0 : BtnState) (ins : Nat → Nat × Bool) (n : Nat) :
    (eventsAt cfg s0 ins n).pressed = true ↔
      (stateAt cfg s0 ins n).stableState = false ∧
        (stateAt cfg s0 ins (n + 1)).stableState = true :=
  stepButton_pressed_iff cfg (stateAt cfg s0 ins n) (ins n).1 (ins n).2

lemma releasedAt_iff (cfg : BtnConfig) (s0 : BtnState) (ins : Nat → Nat × Bool) (n : Nat) :
    (eventsAt cfg s0 ins n).released = true ↔
      (stateAt cfg s0 ins n).stableState = true ∧
        (stateAt cfg s0 ins (n + 1)).stableState = false :=
  stepButton_released_iff cfg (stateAt cfg s0 ins n) (ins n).1 (ins n).2

/-- C6: pressed and released events alternate for a line: between any two
evaluations that raise a pressed event some strictly intermediate evaluation
raises a released event, and vice versa, for every configuration, start
state and evaluation stream. -/
theorem C6_alternation (cfg : BtnConfig) (s0 : BtnState) (ins : Nat → Nat × Bool)
    (k₁ k₂ : Nat) (hk : k₁ < k₂) :
    ((eventsAt cfg s0 ins k₁).pressed = true → (eventsAt cfg s0 ins k₂).pressed = true →
        ∃ m, k₁ < m ∧ m < k₂ ∧ (eventsAt cfg s0 ins m).released = true) ∧
    ((eventsAt cfg s0 ins k₁).released = true → (eventsAt cfg s0 ins k₂).released = true →
        ∃ m, k₁ < m ∧ m < k₂ ∧ (eventsAt cfg s0 ins m).pressed = true) := by
  constructor
  · intro h1 h2
    obtain ⟨hs1, hs2⟩ := (pressedAt_iff cfg s0 ins k₁).mp h1
    obtain ⟨hs3, hs4⟩ := (pressedAt_iff cfg s0 ins k₂).mp h2
    obtain ⟨m, hm1, hm2, hm3, hm4⟩ :=
      exists_fall cfg s0 ins k₂ (k₁ + 1) (by omega) hs2 hs3
    exact ⟨m, by omega, hm2, (releasedAt_iff cfg s0 ins m).mpr ⟨hm3, hm4⟩⟩
  · intro h1 h2
    obtain ⟨hs1, hs2⟩ := (releasedAt_iff cfg s0 ins k₁).mp h1
    obtain ⟨hs3, hs4⟩ := (releasedAt_iff cfg s0 ins k₂).mp h2
    obtain ⟨m, hm1, hm2, hm3, hm4⟩ :=
      exists_rise cfg s0 ins k₂ (k₁ + 1) (by omega) hs2 hs3
    exact ⟨m, by omega, hm2, (pressedAt_iff cfg s0 ins m).mpr ⟨hm3, hm4⟩⟩

/-- Concrete instantiation of `C6_alternation` on a toggling stream. -/
theorem C6_alternation_witness :
    (∃ m, 0 < m ∧ m < 2 ∧ (eventsAt clickCfg (initLine false 0) c6ins m).released = true) ∧
    (∃ m, 1 < m ∧ m < 3 ∧ (eventsAt clickCfg (initLine false 0) c6ins m).pressed = true) := by
  have h1 := C6_alternation clickCfg (initLine false 0) c6ins 0 2 (by decide)
  have h2 := C6_alternation clickCfg (initLine false 0) c6ins 1 3 (by decide)
  exact ⟨h1.1 (by decide) (by decide), h2.2 (by decide) (by decide)⟩

/-- C5: for an in-range index each take-style accessor returns the current
value of its one-shot flag and clears exactly that flag (line count,
capability table, every other line and every other field of the line are
unchanged), so two consecutive calls with no intervening evaluation yield
the flag then `false`; for an out-of-range index each accessor returns
`false` and changes no state at all. -/
theorem C5_take_accessors (st : ButtonsState) (idx : Nat) :
    (idx < st.btnCount →
      ((checkIfButtonWasPressed st idx).1 = (st.lines idx).evtPressed ∧
       (checkIfButtonWasPressed st idx).2.btnCount = st.btnCount ∧
       (checkIfButtonWasPressed st idx).2.hasPCINT = st.hasPCINT ∧
       (checkIfButtonWasPressed st idx).2.lines idx = { st.lines idx with evtPressed := false } ∧
       (∀ j, j ≠ idx → (checkIfButtonWasPressed st idx).2.lines j = st.lines j) ∧
       (checkIfButtonWasPressed (checkIfButtonWasPressed st idx).2 idx).1 = false) ∧
      ((checkIfButtonWasReleased st idx).1 = (st.lines idx).evtReleased ∧
       (checkIfButtonWasReleased st idx).2.btnCount = st.btnCount ∧
       (checkIfButtonWasReleased st idx).2.hasPCINT = st.hasPCINT ∧
       (checkIfButtonWasReleased st idx).2.lines idx = { st.lines idx with evtReleased := false } ∧
       (∀ j, j ≠ idx → (checkIfButtonWasReleased st idx).2.lines j = st.lines j) ∧
       (checkIfButtonWasReleased (checkIfButtonWasReleased st idx).2 idx).1 = false) ∧
      ((checkIfButtonWasLongPressed st idx).1 = (st.lines idx).evtLongPress ∧
       (checkIfButtonWasLongPressed st idx).2.btnCount = st.btnCount ∧
       (checkIfButtonWasLongPressed st idx).2.hasPCINT = st.hasPCINT ∧
       (checkIfButtonWasLongPressed st idx).2.lines idx =
         { st.lines idx with evtLongPress := false } ∧
       (∀ j, j ≠ idx → (checkIfButtonWasLongPressed st idx).2.lines j = st.lines j) ∧
       (checkIfButtonWasLongPressed (checkIfButtonWasLongPressed st idx).2 idx).1 = false) ∧
      ((checkIfButtonWasDoubleClicked st idx).1 = (st.lines idx).evtDoubleClick ∧
       (checkIfButtonWasDoubleClicked st idx).2.btnCount = st.btnCount ∧
       (checkIfButtonWasDoubleClicked st idx).2.hasPCINT = st.hasPCINT ∧
       (checkIfButtonWasDoubleClicked st idx).2.lines idx =
         { st.lines idx with evtDoubleClick := false } ∧
       (∀ j, j ≠ idx → (checkIfButtonWasDoubleClicked st idx).2.lines j = st.lines j) ∧
       (checkIfButtonWasDoubleClicked (checkIfButtonWasDoubleClicked st idx).2 idx).1 = false)) ∧
    (st.btnCount ≤ idx →
      checkIfButtonWasPressed st idx = (false, st) ∧
      checkIfButtonWasReleased st idx = (false, st) ∧
      checkIfButtonWasLongPressed st idx = (false, st) ∧
      checkIfButtonWasDoubleClicked st idx = (false, st)) := by
  constructor
  · intro h
    have hnot : ¬ (st.btnCount ≤ idx) := by omega
    refine ⟨⟨?_, ?_, ?_, ?_, ?_, ?_⟩, ⟨?_, ?_, ?_, ?_, ?_, ?_⟩,
            ⟨?_, ?_, ?_, ?_, ?_, ?_⟩, ⟨?_, ?_, ?_, ?_, ?_, ?_⟩⟩ <;>
      (try intro j hj) <;>
      simp [checkIfButtonWasPressed, checkIfButtonWasReleased,
            checkIfButtonWasLongPressed, checkIfButtonWasDoubleClicked, hnot, *]
  · intro h
    refine ⟨?_, ?_, ?_, ?_⟩ <;>
      simp [checkIfButtonWasPressed, checkIfButtonWasReleased,
            checkIfButtonWasLongPressed, checkIfButtonWasDoubleClicked, h]

/-- C1 (failing-input evidence): the spec claims the interrupt-assisted
`updateButtons` is externally equivalent to the always-poll variant whenever
a capable line's level never changes without the pending flag being set.
The code refutes this: `continue` skips not only the sampling of a capable
line but also its long-press and double-click-timeout logic and its
`sState[i]` write.  With one PCINT-capable line held pressed since
initialization (its level never changes, so the claim's hypothesis holds
with the flag clear), the evaluation at `t = 1000` raises no event at all
and leaves the line state frozen in the interrupt-assisted variant, while
the always-poll variant raises the long-press event and sets the reported
flag. -/
theorem C1_interrupt_skip_divergence :
    (updateButtonsAVR defaultConfig c1state false 1000 (fun _ => true) (fun _ => true)).events 0 =
      noEvents ∧
    ((updateButtonsPoll defaultConfig c1state 1000 (fun _ => true)
        (fun _ => true)).events 0).longPressed = true ∧
    (updateButtonsAVR defaultConfig c1state false 1000 (fun _ => true)
        (fun _ => true)).state.lines 0 = c1state.lines 0 ∧
    ((updateButtonsPoll defaultConfig c1state 1000 (fun _ => true)
        (fun _ => true)).state.lines 0).longReported = true := by
  exact ⟨by decide, by decide, by decide, by decide⟩

set_option maxRecDepth 4000 in
/-- C8 (counterexample): in the §7 scenario the claim says the stable level
transitions to pressed at `t = 96` and `checkIfButtonWasPressed` returns
`true` there.  It returns `false`: the line was seeded stable-pressed at
initialization with no event, the bounces never hold a level for the 50 ms
window, so at `t = 96` the raw and stable levels agree and no transition is
committed. -/
theorem C8_counterexample_no_press :
    (checkIfButtonWasPressed (pollRun defaultConfig c8init c8ticksPre) 0).1 = false := by decide

set_option maxRecDepth 4000 in
/-- C8 (amended): in the scenario (debounce 50 ms, long-press 1000 ms,
double-click 400 ms, one line reading LOW at `t = 0`), no pressed event is
ever raised: the line is seeded stable pressed, the `t = 5..45` bounces never
settle, and at `t = 96` the settled raw level equals the stable level, so
`checkIfButtonWasPressed` returns `false` and the stable level is still
pressed.  The long-press event fires exactly once, at the first evaluation at
or after `t = 1000` (the threshold is measured from the initialization
timestamp, not from `t = 96`), so by `t = 1096` it has fired exactly once;
after the release settles at `t = 1150` the released event fires and
long-press is re-armed (`longReported = false`). -/
theorem C8_scenario_amended :
    (checkIfButtonWasPressed (pollRun defaultConfig c8init c8ticksPre) 0).1 = false ∧
    ((pollRun defaultConfig c8init c8ticksPre).lines 0).stableState = true ∧
    pollTrace defaultConfig c8init c8ticks =
      [noEvents, noEvents, noEvents, noEvents, noEvents, noEvents, noEvents, noEvents,
       noEvents, noEvents, noEvents, noEvents, noEvents,
       ⟨false, false, true, false⟩, noEvents, noEvents,
       ⟨false, true, false, false⟩] ∧
    (checkIfButtonWasLongPressed (pollRun defaultConfig c8init (c8ticks.take 15)) 0).1 = true ∧
    (checkIfButtonWasReleased (pollRun defaultConfig c8init c8ticks) 0).1 = true ∧
    ((pollRun defaultConfig c8init c8ticks).lines 0).longReported = false := by
  exact ⟨by decide, by decide, by decide, by decide, by decide, by decide⟩

/-- Concrete instantiation of `C2_debounce_commit`: a commit at the exact
debounce boundary, and a raw flip that restarts the timer. -/
theorem C2_debounce_commit_witness :
    (defaultConfig.debounceDelay ≤
        elapsedMs 50 (stepButton defaultConfig sHeld 50 true).1.lastDebounceTime ∧
     (stepButton defaultConfig sHeld 50 true).1.stableState = true ∧
     (stepButton defaultConfig sHeld 50 true).1.lastChangeTime = 50) ∧
    ((stepButton defaultConfig (initLine false 0) 10 true).1.lastDebounceTime = 10 ∧
     (stepButton defaultConfig (initLine false 0) 10 true).1.lastRawState = true) ∧
    (stepButton defaultConfig (initLine false 0) 10 true).1.stableState =
      (initLine false 0).stableState := by
  refine ⟨?_, ?_, ?_⟩
  · exact (C2_debounce_commit defaultConfig sHeld 50 true).1 (by decide)
  · exact (C2_debounce_commit defaultConfig (initLine false 0) 10 true).2.1 (by decide)
  · exact (C2_debounce_commit defaultConfig (initLine false 0) 10 true).2.2 (by decide) (by decide)

/-- Concrete instantiation of `C3_long_press` at a firing long-press, a
suppressed re-fire, and a re-arming release. -/
theorem C3_long_press_witness :
    ((stepButton defaultConfig (initLine true 0) 1000 true).1.longReported = true ∧
     (stepButton defaultConfig (initLine true 0) 1000 true).1.clickCount = 0 ∧
     (stepButton defaultConfig (initLine true 0) 1000 true).1.lastPressMillis = 0) ∧
    (stepButton defaultConfig sReported 2000 true).2.longPressed = false ∧
    ((stepButton defaultConfig sRelPending 2000 false).1.stableState = false ∧
     (stepButton defaultConfig sRelPending 2000 false).2.released = true) ∧
    (stepButton defaultConfig (initLine true 0) 1000 true).1.stableState = true := by
  refine ⟨?_, ?_, ?_, ?_⟩
  · exact (C3_long_press defaultConfig (initLine true 0) 1000 true).2.1 (by decide)
  · exact (C3_long_press defaultConfig sReported 2000 true).2.2.1 (by decide) (by decide)
  · exact (C3_long_press defaultConfig sRelPending 2000 false).2.2.2.1
      (by decide) (by decide) (by decide)
  · exact (C3_long_press defaultConfig (initLine true 0) 1000 true).2.2.2.2
      (by decide) (by decide)

/-- Concrete instantiation of `C4_double_click`: the second rapid press
fires the double-click and zeroes the counter and reference. -/
theorem C4_double_click_witness :
    (stepButton clickCfg sOneClick 100 true).1.clickCount = 0 ∧
    (stepButton clickCfg sOneClick 100 true).1.lastPressMillis = 0 :=
  (C4_double_click clickCfg sOneClick 100 true (by decide)).2.1 (by decide)

/-- Concrete instantiation of `C5_take_accessors`: read-and-clear at index
0, and a no-op out-of-range access. -/
theorem C5_take_accessors_witness :
    ((checkIfButtonWasPressed takeDemo 0).1 = (takeDemo.lines 0).evtPressed ∧
     (checkIfButtonWasPressed (checkIfButtonWasPressed takeDemo 0).2 0).1 = false) ∧
    checkIfButtonWasReleased takeDemo 5 = (false, takeDemo) := by
  refine ⟨⟨?_, ?_⟩, ?_⟩
  · exact ((C5_take_accessors takeDemo 0).1 (by decide)).1.1
  · exact ((C5_take_accessors takeDemo 0).1 (by decide)).1.2.2.2.2.2
  · exact ((C5_take_accessors takeDemo 5).2 (by decide)).2.1

/-- Concrete instantiation of `C10_long_press_without_press` with the
default timings. -/
theorem C10_long_press_without_press_witness :
    (stepButton defaultConfig (initLine true 0) 1000 true).2.longPressed = true ∧
    (stepButton defaultConfig (initLine true 0) 1000 true).2.pressed = false ∧
    (stepButton defaultConfig (stepButton defaultConfig (initLine true 0) 1000 true).1
        1500 true).2.longPressed = false ∧
    (stepButton defaultConfig (initLine true 0) 500 true).2.longPressed = false := by
  have h := C10_long_press_without_press defaultConfig 0 1000 1500 (by decide)
  exact ⟨h.2.1, h.2.2.1, h.2.2.2.1, h.2.2.2.2.2 500 (by decide)⟩

end LibButton
